import Mathlib

/-!
Verification of the attendance-marking core of the `php_student_backend`
repository (a FastAPI/SQLAlchemy classroom-attendance service), shallowly
embedded in Lean 4.

Python strings are modelled as `List Char` (a Python `str` is a sequence of
code points), database tables as Lean lists of records, and each HTTP handler
as a pure function from its request data and an explicit database state to a
result paired with the successor state.  `datetime.utcnow()` / `time.time()`
values and freshly generated UUIDs are threaded in as parameters, since the
handlers obtain them from the ambient environment.
-/

namespace StudentBackend

/-- A Python string, modelled as its sequence of characters. -/
abbrev PyStr := List Char

/-- The fixed action literal minted into every QR payload and required by the
attendance handlers (`"marcar_presenca"` in `src/utils/helpers.py` and the
routers; the spec renders this tag in English as `"mark_attendance"`). -/
def marcar_presenca : PyStr := "marcar_presenca".toList

/-- The enrollment-discriminant literal `"aluno"` (student) used in the
`IntegranteDaTurma.tipo` comparisons of the routers. -/
def tipo_aluno : PyStr := "aluno".toList

/-- Row of table `dia_de_aula` (`src/models/database_models.py`, class
`DiaDeAula`): a class session.  Fields not consulted by the verified
handlers (`data`, `created_at`) are omitted. -/
structure DiaDeAula where
  id : PyStr
  turma_id : PyStr
  aula_foi_dada : Bool
  professor_id : PyStr
deriving DecidableEq, Repr

/-- Row of table `integrante_da_turma` (class `IntegranteDaTurma`): a class
membership record tying a class to a professor or a student, discriminated
by `tipo`.  The two foreign keys are nullable columns. -/
structure IntegranteDaTurma where
  turma_id : PyStr
  professor_id : Option PyStr
  aluno_id : Option PyStr
  tipo : PyStr
deriving DecidableEq, Repr

/-- Row of table `presenca` (class `Presenca`): one attendance record.  The
`timestamp` column (a datetime) is modelled as epoch seconds. -/
structure Presenca where
  id : PyStr
  aluno_id : PyStr
  dia_aula_id : PyStr
  timestamp : Int
deriving DecidableEq, Repr

/-- Request body `AttendanceRequest` (`src/models/pydantic_models.py`): it
declares exactly the two fields `dia_aula_id` and `action` — in particular
no timestamp field. -/
structure AttendanceRequest where
  dia_aula_id : PyStr
  action : PyStr
deriving DecidableEq, Repr

/-- Pydantic attribute access `attendance_data.timestamp` as performed by
`src/routers/student/student.py`.  The `AttendanceRequest` model defines no
such field, so in Python the lookup raises `AttributeError`; here it yields
`none`. -/
def AttendanceRequest.lookup_timestamp (_ : AttendanceRequest) : Option Int :=
  none

/-- QR payload data `QRCodeData` (`src/models/pydantic_models.py`). -/
structure QRCodeData where
  dia_aula_id : PyStr
  timestamp : Int
  action : PyStr
deriving DecidableEq, Repr

/-- The persistent state touched by the attendance core: the three tables the
handlers read and write. -/
structure DB where
  dias : List DiaDeAula
  integrantes : List IntegranteDaTurma
  presencas : List Presenca
deriving DecidableEq, Repr

/-- The rejection kinds of the attendance validation pipeline. -/
inductive RejectKind
  | invalidAction
  | tokenExpired
  | sessionNotFound
  | notEnrolled
  | alreadyMarked
deriving DecidableEq, Repr

/-- HTTP status code raised for each rejection kind
(`raise HTTPException(status_code=...)` in the routers; `tokenExpired`
appears only in `src/routers/student/student.py`). -/
def statusOf : RejectKind → Nat
  | .invalidAction => 400
  | .tokenExpired => 400
  | .sessionNotFound => 404
  | .notEnrolled => 403
  | .alreadyMarked => 409

/-- Outcome of `mark_attendance` in `src/routers/attendance/attendance.py`:
either the created record (the `AttendanceResponse` is built from it by
`from_orm`) or an `HTTPException` rejection. -/
inductive MarkResult
  | ok (rec : Presenca)
  | reject (k : RejectKind)
deriving DecidableEq, Repr

/-- The query `select(DiaDeAula).where(DiaDeAula.id == dia_aula_id)` followed
by `scalar_one_or_none()` (`id` is the primary key, so at most one row
matches). -/
def findDia (db : DB) (dia_aula_id : PyStr) : Option DiaDeAula :=
  db.dias.find? (fun d => d.id == dia_aula_id)

/-- The enrollment query of the attendance handlers:
`IntegranteDaTurma.turma_id == turma AND aluno_id == aluno AND tipo ==
"aluno"`, via `scalar_one_or_none()`.  A SQL `NULL` `aluno_id` column never
equals a student id, hence the `some` comparison. -/
def findEnrollment (db : DB) (turma aluno : PyStr) : Option IntegranteDaTurma :=
  db.integrantes.find?
    (fun e => e.turma_id == turma && e.aluno_id == some aluno && e.tipo == tipo_aluno)

/-- The duplicate-attendance query:
`Presenca.aluno_id == aluno AND Presenca.dia_aula_id == dia`, via
`scalar_one_or_none()`. -/
def findPresenca (db : DB) (aluno dia : PyStr) : Option Presenca :=
  db.presencas.find? (fun p => p.aluno_id == aluno && p.dia_aula_id == dia)

/-- Handler `mark_attendance` (`POST /attendance/mark`,
`src/routers/attendance/attendance.py` lines 16–58).  The token-freshness
check present in the source is commented out there, so it does not appear in
the pipeline; the live checks are, in order: action literal, session
existence, enrollment, duplicate.  `now` stands for `datetime.utcnow()` and
`newId` for the `generate_uuid()` result. -/
def mark_attendance (data : AttendanceRequest) (student_id : PyStr) (now : Int)
    (newId : PyStr) (db : DB) : MarkResult × DB :=
  if data.action ≠ marcar_presenca then (.reject .invalidAction, db)
  else
    match findDia db data.dia_aula_id with
    | none => (.reject .sessionNotFound, db)
    | some dia =>
      match findEnrollment db dia.turma_id student_id with
      | none => (.reject .notEnrolled, db)
      | some _ =>
        match findPresenca db student_id data.dia_aula_id with
        | some _ => (.reject .alreadyMarked, db)
        | none =>
          let newRec : Presenca :=
            ⟨newId, student_id, data.dia_aula_id, now⟩
          (.ok newRec, { db with presencas := db.presencas ++ [newRec] })

/-- Handler `scan_qrcode` (`POST /qrcode/scan`,
`src/routers/qrcode/qrcode.py` lines 37–45): it delegates to
`mark_attendance` unchanged (`return await mark_attendance(data, student,
db)`). -/
def scan_qrcode (data : AttendanceRequest) (student_id : PyStr) (now : Int)
    (newId : PyStr) (db : DB) : MarkResult × DB :=
  mark_attendance data student_id now newId db

/-- Number of attendance records stored for one (student, session) pair. -/
def pairCount (db : DB) (aluno dia : PyStr) : Nat :=
  (db.presencas.filter (fun p => p.aluno_id == aluno && p.dia_aula_id == dia)).length

/-- `validate_qr_timestamp` (`src/utils/helpers.py` lines 57–62): the token
is fresh iff `current_time - timestamp <= max_age_minutes * 60`.
`current_time` is `int(time.time())`, threaded in as a parameter. -/
def validate_qr_timestamp (timestamp : Int) (current_time : Int)
    (max_age_minutes : Int := 30) : Bool :=
  current_time - timestamp ≤ max_age_minutes * 60

/-! ## Token codec

`generate_qr_code` in `src/utils/helpers.py` builds the payload string
`f"{dia_aula_id}|{timestamp}|{action}"` (and then draws it into a base64 PNG
image — pure presentation, the information content is the payload string,
which is what `parse_qr_data` consumes back).  We model Python's `str(int)`
rendering and the sign-and-digits core of `int(str)` parsing used on the
timestamp field. -/

/-- Python `str.split(sep)` for a single-character separator. -/
def splitOnChar (sep : Char) : List Char → List (List Char)
  | [] => [[]]
  | c :: cs =>
    match splitOnChar sep cs with
    | [] => [[]]
    | r :: rs => if c = sep then [] :: r :: rs else (c :: r) :: rs

/-- Digit-extraction loop of decimal rendering: repeatedly divide by ten and
emit the remainder digit, most-significant first.  The first argument is
fuel bounding the recursion depth (`n` itself always suffices). -/
def natCharsAux : Nat → Nat → List Char
  | 0, _ => []
  | _ + 1, 0 => []
  | fuel + 1, n + 1 =>
    natCharsAux fuel ((n + 1) / 10) ++ [Nat.digitChar ((n + 1) % 10)]

/-- Decimal rendering of a natural number, as Python `str` produces it:
most-significant digit first, `"0"` for zero. -/
def natChars (n : Nat) : PyStr :=
  if n = 0 then ['0'] else natCharsAux n n

/-- Python `str(int)`: optional leading minus sign followed by the decimal
digits of the absolute value. -/
def intChars (t : Int) : PyStr :=
  if t < 0 then '-' :: natChars t.natAbs else natChars t.toNat

/-- The digit value of a decimal digit character, `none` otherwise. -/
def charDigit? (c : Char) : Option Nat :=
  if 48 ≤ c.toNat && c.toNat ≤ 57 then some (c.toNat - 48) else none

/-- Accumulating decimal parse: fails on the first non-digit character. -/
def pyNatCore : PyStr → Nat → Option Nat
  | [], acc => some acc
  | c :: cs, acc =>
    match charDigit? c with
    | some d => pyNatCore cs (10 * acc + d)
    | none => none

/-- Parse of an unsigned decimal numeral (nonempty, all digits). -/
def pyNat? (s : PyStr) : Option Nat :=
  if s.isEmpty then none else pyNatCore s 0

/-- Python `int(str)` on its sign-and-digits core grammar (Python also
tolerates surrounding whitespace and interior underscores; those forms are
never produced by `str(int)` and play no role here).  Failure models the
`ValueError` that `int` raises. -/
def pyInt? (s : PyStr) : Option Int :=
  match s with
  | [] => none
  | c :: rest =>
    if c = '-' then (pyNat? rest).map (fun n : Nat => -(n : Int))
    else if c = '+' then (pyNat? rest).map (fun n : Nat => (n : Int))
    else (pyNat? (c :: rest)).map (fun n : Nat => (n : Int))

/-- The QR payload string built by `generate_qr_code`
(`src/utils/helpers.py` lines 15–38):
`f"{data['dia_aula_id']}|{data['timestamp']}|{data['action']}"`. -/
def generate_qr_string (data : QRCodeData) : PyStr :=
  data.dia_aula_id ++ '|' :: intChars data.timestamp ++ '|' :: data.action

/-- `parse_qr_data` (`src/utils/helpers.py` lines 41–54): split on `'|'`,
require exactly three fields, parse the middle field as an integer; any
failure raises `ValueError`, modelled as `none`. -/
def parse_qr_data (qr_string : PyStr) : Option QRCodeData :=
  match splitOnChar '|' qr_string with
  | [p0, p1, p2] =>
    match pyInt? p1 with
    | some t => some ⟨p0, t, p2⟩
    | none => none
  | _ => none

/-! ## QR generation endpoint -/

/-- Outcome of the `POST /qrcode/generate` handler: the `QRCodeData` plus the
encoded payload (the base64 PNG of `generate_qr_string`), or an
`HTTPException` with its status code and detail string. -/
inductive QRGenResult
  | ok (qr_data : QRCodeData) (payload : PyStr)
  | httpError (status : Nat) (detail : PyStr)
deriving DecidableEq, Repr

/-- Detail string of the rejection in `generate_qrcode`. -/
def accessDeniedDetail : PyStr := "Class day not found or access denied".toList

/-- The ownership-folded lookup of `generate_qrcode`:
`select(DiaDeAula).where(DiaDeAula.id == dia_aula_id, DiaDeAula.professor_id
== professor_id)` via `scalar_one_or_none()`. -/
def findDiaOwned (db : DB) (dia_aula_id professor_id : PyStr) : Option DiaDeAula :=
  db.dias.find? (fun d => d.id == dia_aula_id && d.professor_id == professor_id)

/-- Handler `generate_qrcode` (`POST /qrcode/generate`,
`src/routers/qrcode/qrcode.py` lines 21–34): looks the session up by id and
issuing professor in one query; on miss raises 404 (both for a missing
session and for a session owned by another professor), on hit mints
`QRCodeData(dia_aula_id, timestamp=int(time.time()), action="marcar_presenca")`
and returns it with the encoded payload. -/
def generate_qrcode (dia_aula_id : PyStr) (professor_id : PyStr) (now : Int)
    (db : DB) : QRGenResult :=
  match findDiaOwned db dia_aula_id professor_id with
  | none => .httpError 404 accessDeniedDetail
  | some _ =>
    let qr_data : QRCodeData := ⟨dia_aula_id, now, marcar_presenca⟩
    .ok qr_data (generate_qr_string qr_data)

/-! ## Attendance count endpoint -/

/-- Outcome of the `GET /attendance/{day_id}/count` handler. -/
inductive CountResult
  | ok (attendance_count : Nat)
  | internalError (detail : PyStr)
deriving DecidableEq, Repr

/-- The unresolved name whose evaluation aborts `get_attendance_count`. -/
def nameErrorFunc : PyStr := "name 'func' is not defined".toList

/-- The row count the handler's query text denotes:
`select(func.count(Presenca.id)).where(Presenca.dia_aula_id == day_id)`. -/
def countForSession (db : DB) (day_id : PyStr) : Nat :=
  (db.presencas.filter (fun p => p.dia_aula_id == day_id)).length

/-- Handler `get_attendance_count` (`GET /attendance/{day_id}/count`,
`src/routers/attendance/attendance.py` lines 60–70).  Its body evaluates
`func.count(...)`, but no import of `src/routers/attendance/attendance.py`
binds the name `func` (the module imports only `select` and `and_` from
sqlalchemy), so every invocation raises `NameError` while building the query
expression, before the database is consulted. -/
def get_attendance_count (_day_id : PyStr) (_db : DB) : CountResult :=
  .internalError nameErrorFunc

/-! ## Direct student entry path -/

/-- Outcome of the `POST /student/attendance` handler: success, an
`HTTPException` rejection, or an uncaught Python exception surfacing as an
internal server error. -/
inductive StudentMarkResult
  | ok (rec : Presenca)
  | reject (k : RejectKind)
  | internalError (detail : PyStr)
deriving DecidableEq, Repr

/-- The uncaught exception text of the student path. -/
def attributeErrorTimestamp : PyStr :=
  "AttributeError: 'AttendanceRequest' object has no attribute 'timestamp'".toList

/-- Handler `mark_attendance` of `src/routers/student/student.py` lines
127–212 (`POST /student/attendance`).  Its first step evaluates
`attendance_data.timestamp` for the freshness check; the `AttendanceRequest`
model defines no `timestamp` field, so the attribute lookup fails and the
request aborts with an internal error.  Were a timestamp present, the
handler would run the freshness check and then the same pipeline as
`mark_attendance` of the attendance router (action, session, enrollment,
duplicate, insert). -/
def student_mark_attendance (attendance_data : AttendanceRequest)
    (student_id : PyStr) (now : Int) (newId : PyStr) (db : DB) :
    StudentMarkResult × DB :=
  match attendance_data.lookup_timestamp with
  | none => (.internalError attributeErrorTimestamp, db)
  | some ts =>
    if !validate_qr_timestamp ts now then (.reject .tokenExpired, db)
    else
      match mark_attendance attendance_data student_id now newId db with
      | (.ok rec, db1) => (.ok rec, db1)
      | (.reject k, db1) => (.reject k, db1)

/-! ## Repeated-call machinery -/

/-- One invocation of the shared `mark_attendance` pipeline, with its
environment-supplied timestamp and fresh UUID. -/
structure Call where
  data : AttendanceRequest
  student_id : PyStr
  now : Int
  newId : PyStr
deriving DecidableEq, Repr

/-- Sequential execution of a list of mark-attendance calls, keeping only the
evolving database state. -/
def run_calls (calls : List Call) (db : DB) : DB :=
  calls.foldl (fun d c => (mark_attendance c.data c.student_id c.now c.newId d).2) db

/-! ## Concrete example data

A small concrete population used by witnesses and counterexamples: class
`c1` owned by professor `p1`, one session `s1` of it, student `u1` enrolled,
student `u2` not enrolled, professor `p2` unrelated. -/

/-- Example student id (enrolled in `c1`). -/
def exStudent1 : PyStr := "u1".toList

/-- Example student id (not enrolled anywhere). -/
def exStudent2 : PyStr := "u2".toList

/-- Example professor id (owner of session `s1`). -/
def exProf1 : PyStr := "p1".toList

/-- Example professor id (owner of nothing). -/
def exProf2 : PyStr := "p2".toList

/-- Example class-session id. -/
def exSession1 : PyStr := "s1".toList

/-- Example class id. -/
def exClass1 : PyStr := "c1".toList

/-- Example class session: `s1` of class `c1`, owned by professor `p1`. -/
def exDia1 : DiaDeAula := ⟨exSession1, exClass1, false, exProf1⟩

/-- Example enrollment: student `u1` is a member of class `c1` as a student. -/
def exEnr1 : IntegranteDaTurma := ⟨exClass1, none, some exStudent1, tipo_aluno⟩

/-- Example database: one session, one enrollment, empty attendance ledger. -/
def exDb : DB := ⟨[exDia1], [exEnr1], []⟩

/-- Example well-formed scan request for session `s1`. -/
def exReq : AttendanceRequest := ⟨exSession1, marcar_presenca⟩

/-- The attendance record created by `u1`'s first successful scan of `s1`. -/
def exRec : Presenca := ⟨"r1".toList, exStudent1, exSession1, 1500⟩

/-- The database after that first successful scan. -/
def exDb1 : DB := ⟨[exDia1], [exEnr1], [exRec]⟩

/-!
# Theorems

First general-purpose lemmas about the embedded operations, then one theorem
per claim (with a witness where the theorem carries hypotheses).
-/

/-- The fuel-based digit loop agrees with `Nat.digits` once the fuel bounds
the input. -/
theorem natCharsAux_eq_digits (fuel : Nat) :
    ∀ n, n ≤ fuel →
      natCharsAux fuel n = ((Nat.digits 10 n).map Nat.digitChar).reverse := by
  induction fuel with
  | zero =>
    intro n hn
    interval_cases n
    simp [natCharsAux]
  | succ fuel ih =>
    intro n hn
    match n with
    | 0 => simp [natCharsAux]
    | m + 1 =>
      rw [natCharsAux, ih ((m + 1) / 10) (by omega),
        Nat.digits_def' (b := 10) (by norm_num) (Nat.succ_pos m)]
      simp

/-- Closed form of `natChars` in terms of `Nat.digits`. -/
theorem natChars_eq (n : Nat) :
    natChars n =
      if n = 0 then ['0'] else ((Nat.digits 10 n).map Nat.digitChar).reverse := by
  unfold natChars
  split
  · rfl
  · exact natCharsAux_eq_digits n n le_rfl

/-- `charDigit?` inverts `Nat.digitChar` on single digits. -/
theorem charDigit?_digitChar (d : Nat) (h : d < 10) :
    charDigit? (Nat.digitChar d) = some d := by
  interval_cases d <;> decide

/-- The characters of `Nat.digitChar` images of digits lie in the ASCII
digit range. -/
theorem digitChar_range (d : Nat) (h : d < 10) :
    48 ≤ (Nat.digitChar d).toNat ∧ (Nat.digitChar d).toNat ≤ 57 := by
  interval_cases d <;> decide

/-- Every character of a rendered natural number is an ASCII digit. -/
theorem natChars_digit_range (n : Nat) (c : Char) (hc : c ∈ natChars n) :
    48 ≤ c.toNat ∧ c.toNat ≤ 57 := by
  rw [natChars_eq] at hc
  split at hc
  · simp at hc
    subst hc
    decide
  · rw [List.mem_reverse, List.mem_map] at hc
    obtain ⟨d, hd, rfl⟩ := hc
    exact digitChar_range d (Nat.digits_lt_base (by norm_num) hd)

/-- Rendered natural numbers are never the empty string. -/
theorem natChars_ne_nil (n : Nat) : natChars n ≠ [] := by
  rw [natChars_eq]
  split
  · simp
  · simp [Nat.digits_ne_nil_iff_ne_zero, *]

/-- The digit-fold of the parser evaluates a digit string most-significant
first: folding the rendered digits of `L` onto `acc` yields
`acc * 10 ^ |L| + ofDigits 10 L.reverse`. -/
theorem pyNatCore_map_digitChar (L : List Nat) (hL : ∀ d ∈ L, d < 10) :
    ∀ acc, pyNatCore (L.map Nat.digitChar) acc =
      some (acc * 10 ^ L.length + Nat.ofDigits 10 L.reverse) := by
  induction L with
  | nil =>
    intro acc
    simp [pyNatCore, Nat.ofDigits_nil]
  | cons d L ih =>
    intro acc
    have hd : d < 10 := hL d (by simp)
    have hL' : ∀ x ∈ L, x < 10 := fun x hx => hL x (by simp [hx])
    simp only [List.map_cons, pyNatCore, charDigit?_digitChar d hd]
    rw [ih hL' (10 * acc + d)]
    congr 1
    rw [List.reverse_cons, Nat.ofDigits_append, List.length_reverse,
      Nat.ofDigits_singleton, List.length_cons, pow_succ]
    ring

/-- Parsing inverts rendering on natural numbers. -/
theorem pyNat?_natChars (n : Nat) : pyNat? (natChars n) = some n := by
  by_cases h0 : n = 0
  · subst h0
    decide
  · rw [natChars_eq, if_neg h0, ← List.map_reverse]
    have hdig : ∀ d ∈ (Nat.digits 10 n).reverse, d < 10 := fun d hd =>
      Nat.digits_lt_base (by norm_num) (List.mem_reverse.mp hd)
    have hne : (Nat.digits 10 n).reverse.map Nat.digitChar ≠ [] := by
      simp [Nat.digits_ne_nil_iff_ne_zero, h0]
    rw [pyNat?, if_neg (by simp [Nat.digits_ne_nil_iff_ne_zero, h0])]
    rw [pyNatCore_map_digitChar _ hdig 0]
    simp [Nat.ofDigits_digits]

/-- Parsing inverts Python's `str(int)` rendering on integers. -/
theorem pyInt?_intChars (t : Int) : pyInt? (intChars t) = some t := by
  unfold intChars
  split
  · rename_i ht
    rw [pyInt?]
    rw [if_pos rfl, pyNat?_natChars, Option.map_some']
    congr 1
    omega
  · rename_i ht
    rcases hs : natChars t.toNat with _ | ⟨c, cs⟩
    · exact absurd hs (natChars_ne_nil _)
    · have hcrange : 48 ≤ c.toNat ∧ c.toNat ≤ 57 :=
        natChars_digit_range t.toNat c (hs ▸ List.mem_cons_self c cs)
      have hcm : c ≠ '-' := by
        intro hEq
        subst hEq
        revert hcrange
        decide
      have hcp : c ≠ '+' := by
        intro hEq
        subst hEq
        revert hcrange
        decide
      rw [pyInt?, if_neg hcm, if_neg hcp, ← hs, pyNat?_natChars, Option.map_some']
      congr 1
      omega

/-- `splitOnChar` always yields at least one field. -/
theorem splitOnChar_ne_nil (sep : Char) (s : List Char) :
    splitOnChar sep s ≠ [] := by
  cases s with
  | nil => simp [splitOnChar]
  | cons c cs =>
    rw [splitOnChar]
    rcases h : splitOnChar sep cs with _ | ⟨r, rs⟩
    · simp
    · by_cases hc : c = sep <;> simp [hc]

/-- A separator-free string splits into the single field it is. -/
theorem splitOnChar_not_mem (sep : Char) (s : List Char) (h : sep ∉ s) :
    splitOnChar sep s = [s] := by
  induction s with
  | nil => rfl
  | cons c cs ih =>
    have hc : c ≠ sep := fun hEq => h (hEq ▸ List.mem_cons_self c cs)
    have hcs : sep ∉ cs := fun hm => h (List.mem_cons_of_mem c hm)
    rw [splitOnChar, ih hcs]
    simp [hc]

/-- Splitting after a separator-free prefix peels that prefix off as the
first field. -/
theorem splitOnChar_append (sep : Char) (a rest : List Char) (h : sep ∉ a) :
    splitOnChar sep (a ++ sep :: rest) = a :: splitOnChar sep rest := by
  induction a with
  | nil =>
    rw [List.nil_append, splitOnChar]
    rcases hr : splitOnChar sep rest with _ | ⟨r, rs⟩
    · exact absurd hr (splitOnChar_ne_nil sep rest)
    · simp
  | cons c a ih =>
    have hc : c ≠ sep := fun hEq => h (hEq ▸ List.mem_cons_self c a)
    have ha : sep ∉ a := fun hm => h (List.mem_cons_of_mem c hm)
    rw [List.cons_append, splitOnChar, ih ha]
    simp [hc]

/-- No pipe occurs in a rendered integer timestamp. -/
theorem pipe_not_mem_intChars (t : Int) : '|' ∉ intChars t := by
  have hn : ∀ n c, c ∈ natChars n → c ≠ '|' := by
    intro n c hc hEq
    have hr := natChars_digit_range n c hc
    subst hEq
    revert hr
    decide
  unfold intChars
  split
  · intro hmem
    rcases List.mem_cons.mp hmem with hEq | hmem'
    · exact absurd hEq.symm (by decide)
    · exact hn _ _ hmem' rfl
  · intro hmem
    exact hn _ _ hmem rfl

/-- No pipe occurs in the fixed action literal. -/
theorem pipe_not_mem_action : '|' ∉ marcar_presenca := by decide

/-- `mark_attendance` never modifies the sessions table. -/
theorem mark_attendance_dias (data : AttendanceRequest) (s : PyStr) (now : Int)
    (nid : PyStr) (db : DB) :
    ((mark_attendance data s now nid db).2).dias = db.dias := by
  unfold mark_attendance
  repeat' split
  all_goals rfl

/-- `mark_attendance` never modifies the membership table. -/
theorem mark_attendance_integrantes (data : AttendanceRequest) (s : PyStr)
    (now : Int) (nid : PyStr) (db : DB) :
    ((mark_attendance data s now nid db).2).integrantes = db.integrantes := by
  unfold mark_attendance
  repeat' split
  all_goals rfl

/-- `mark_attendance` never removes an attendance record. -/
theorem mark_attendance_presencas_mono (data : AttendanceRequest) (s : PyStr)
    (now : Int) (nid : PyStr) (db : DB) (p : Presenca)
    (hp : p ∈ db.presencas) :
    p ∈ ((mark_attendance data s now nid db).2).presencas := by
  unfold mark_attendance
  repeat' split
  all_goals simp_all

/-- Unfolding of `run_calls` over the first call. -/
theorem run_calls_cons (c : Call) (cs : List Call) (db : DB) :
    run_calls (c :: cs) db =
      run_calls cs ((mark_attendance c.data c.student_id c.now c.newId db).2) :=
  rfl

/-- Any sequence of mark-attendance calls leaves the sessions table fixed. -/
theorem run_calls_dias (calls : List Call) (db : DB) :
    (run_calls calls db).dias = db.dias := by
  induction calls generalizing db with
  | nil => rfl
  | cons c cs ih =>
    rw [run_calls_cons, ih, mark_attendance_dias]

/-- Any sequence of mark-attendance calls leaves the membership table
fixed. -/
theorem run_calls_integrantes (calls : List Call) (db : DB) :
    (run_calls calls db).integrantes = db.integrantes := by
  induction calls generalizing db with
  | nil => rfl
  | cons c cs ih =>
    rw [run_calls_cons, ih, mark_attendance_integrantes]

/-- Any sequence of mark-attendance calls never removes an attendance
record. -/
theorem run_calls_presencas_mono (calls : List Call) (db : DB) (p : Presenca)
    (hp : p ∈ db.presencas) : p ∈ (run_calls calls db).presencas := by
  induction calls generalizing db with
  | nil => exact hp
  | cons c cs ih =>
    rw [run_calls_cons]
    exact ih _ (mark_attendance_presencas_mono c.data c.student_id c.now
      c.newId db p hp)

/-- Appending one element preserves a filtered-length bound of one, provided
the element may only match when nothing already matched. -/
theorem length_filter_append_le {α : Type} (l : List α) (r : α) (p : α → Bool)
    (h1 : (l.filter p).length ≤ 1)
    (h2 : p r = true → l.filter p = []) :
    ((l ++ [r]).filter p).length ≤ 1 := by
  rw [List.filter_append, List.length_append]
  by_cases hr : p r = true
  · rw [h2 hr]
    simp [List.filter_cons, hr]
  · simp only [List.filter_cons, hr]
    simp
    exact h1

/-- One `mark_attendance` call preserves the at-most-one-record bound of any
(student, session) pair: a record is inserted only after the duplicate check
found no record for its own pair. -/
theorem pairCount_mark_le (data : AttendanceRequest) (s : PyStr) (now : Int)
    (nid : PyStr) (db : DB) (a d : PyStr) (h : pairCount db a d ≤ 1) :
    pairCount ((mark_attendance data s now nid db).2) a d ≤ 1 := by
  by_cases ha : data.action = marcar_presenca
  · rcases hd : findDia db data.dia_aula_id with _ | dia
    · simpa [mark_attendance, ha, hd] using h
    · rcases he : findEnrollment db dia.turma_id s with _ | e
      · simpa [mark_attendance, ha, hd, he] using h
      · rcases hp : findPresenca db s data.dia_aula_id with _ | q
        · have hnone : ∀ q ∈ db.presencas,
              ¬(q.aluno_id == s && q.dia_aula_id == data.dia_aula_id) = true := by
            rw [findPresenca, List.find?_eq_none] at hp
            exact hp
          have key : ((db.presencas ++ [(⟨nid, s, data.dia_aula_id, now⟩ : Presenca)]).filter
              (fun p : Presenca => p.aluno_id == a && p.dia_aula_id == d)).length ≤ 1 := by
            apply length_filter_append_le _ _ _ h
            intro hpr
            simp only [Bool.and_eq_true, beq_iff_eq] at hpr
            obtain ⟨h1, h2⟩ := hpr
            subst h1
            subst h2
            exact List.filter_eq_nil_iff.mpr hnone
          simpa [mark_attendance, ha, hd, he, hp, pairCount] using key
        · simpa [mark_attendance, ha, hd, he, hp] using h
  · simpa [mark_attendance, ha] using h

/-- Any sequence of mark-attendance calls preserves the at-most-one-record
bound of any (student, session) pair. -/
theorem pairCount_run_le (calls : List Call) (db : DB) (a d : PyStr)
    (h : pairCount db a d ≤ 1) : pairCount (run_calls calls db) a d ≤ 1 := by
  induction calls generalizing db with
  | nil => exact h
  | cons c cs ih =>
    rw [run_calls_cons]
    exact ih _ (pairCount_mark_le c.data c.student_id c.now c.newId db a d h)

/-- Inversion of a successful `mark_attendance` call: the action was valid,
the session existed, the student was enrolled, no record for the pair
existed, and the new state appends exactly one record for the pair. -/
theorem mark_attendance_ok (data : AttendanceRequest) (s : PyStr) (now : Int)
    (nid : PyStr) (db : DB) (r : Presenca) (db1 : DB)
    (h : mark_attendance data s now nid db = (.ok r, db1)) :
    data.action = marcar_presenca
    ∧ (∃ dia, findDia db data.dia_aula_id = some dia ∧
        (findEnrollment db dia.turma_id s).isSome = true)
    ∧ findPresenca db s data.dia_aula_id = none
    ∧ r = ⟨nid, s, data.dia_aula_id, now⟩
    ∧ db1 = { db with presencas := db.presencas ++ [r] } := by
  by_cases ha : data.action = marcar_presenca
  · rcases hd : findDia db data.dia_aula_id with _ | dia
    · simp [mark_attendance, ha, hd] at h
    · rcases he : findEnrollment db dia.turma_id s with _ | e
      · simp [mark_attendance, ha, hd, he] at h
      · rcases hp : findPresenca db s data.dia_aula_id with _ | q
        · simp [mark_attendance, ha, hd, he, hp, Prod.mk.injEq] at h
          obtain ⟨hr, hdb⟩ := h
          have hr' : r = ⟨nid, s, data.dia_aula_id, now⟩ := by
            cases hr
            rfl
          refine ⟨ha, ⟨dia, rfl, by simp [he]⟩, rfl, hr', ?_⟩
          rw [← hdb, hr']
        · simp [mark_attendance, ha, hd, he, hp] at h
  · simp [mark_attendance, ha] at h

/-- C1: starting from any state in which a (student, session) pair has at
most one attendance record, any number of further mark-attendance calls
leaves it with at most one record; and once a call for the pair has
succeeded, every later call for the same pair — whatever other calls
happened in between — is rejected with `alreadyMarked` (HTTP 409) and
creates no record. -/
theorem C1_at_most_one_record (db : DB) (a d : PyStr) (calls calls2 : List Call)
    (req : AttendanceRequest) (s : PyStr) (now now2 : Int) (nid nid2 : PyStr)
    (r : Presenca) (db1 : DB)
    (hinv : pairCount db a d ≤ 1)
    (hok : mark_attendance req s now nid db = (.ok r, db1)) :
    pairCount (run_calls calls db) a d ≤ 1
    ∧ mark_attendance req s now2 nid2 (run_calls calls2 db1) =
        (.reject .alreadyMarked, run_calls calls2 db1)
    ∧ statusOf .alreadyMarked = 409 := by
  obtain ⟨ha, ⟨dia, hdia, henr⟩, hpres, hr, hdb1⟩ :=
    mark_attendance_ok req s now nid db r db1 hok
  refine ⟨pairCount_run_le calls db a d hinv, ?_, rfl⟩
  have hdias : (run_calls calls2 db1).dias = db.dias := by
    rw [run_calls_dias, hdb1]
  have hints : (run_calls calls2 db1).integrantes = db.integrantes := by
    rw [run_calls_integrantes, hdb1]
  have hfd2 : findDia (run_calls calls2 db1) req.dia_aula_id = some dia := by
    rw [findDia, hdias]
    rw [findDia] at hdia
    exact hdia
  have hmem1 : r ∈ db1.presencas := by
    rw [hdb1]
    simp
  have hmem2 : r ∈ (run_calls calls2 db1).presencas :=
    run_calls_presencas_mono calls2 db1 r hmem1
  have hfp2 : (findPresenca (run_calls calls2 db1) s req.dia_aula_id).isSome = true := by
    rw [findPresenca, List.find?_isSome]
    refine ⟨r, hmem2, ?_⟩
    rw [hr]
    simp
  obtain ⟨q, hq⟩ := Option.isSome_iff_exists.mp hfp2
  obtain ⟨e, he⟩ := Option.isSome_iff_exists.mp henr
  have he2 : findEnrollment (run_calls calls2 db1) dia.turma_id s = some e := by
    rw [findEnrollment, hints]
    rw [findEnrollment] at he
    exact he
  simp [mark_attendance, ha, hfd2, he2, hq]

/-- Witness for C1: student `u1` marks attendance for session `s1` once,
successfully; after an interleaved duplicate attempt the repeat call is
rejected with 409 and the pair still has exactly one record. -/
theorem C1_at_most_one_record_witness :
    (pairCount exDb exStudent1 exSession1 ≤ 1
     ∧ mark_attendance exReq exStudent1 1500 ("r1".toList) exDb = (.ok exRec, exDb1))
    ∧ (pairCount (run_calls [⟨exReq, exStudent1, 1600, "r2".toList⟩] exDb)
         exStudent1 exSession1 ≤ 1
       ∧ mark_attendance exReq exStudent1 1700 ("r3".toList)
           (run_calls [⟨exReq, exStudent1, 1600, "r2".toList⟩] exDb1) =
           (.reject .alreadyMarked,
            run_calls [⟨exReq, exStudent1, 1600, "r2".toList⟩] exDb1)
       ∧ statusOf .alreadyMarked = 409) :=
  ⟨⟨by decide, by decide⟩,
   C1_at_most_one_record exDb exStudent1 exSession1
     [⟨exReq, exStudent1, 1600, "r2".toList⟩]
     [⟨exReq, exStudent1, 1600, "r2".toList⟩]
     exReq exStudent1 1500 1700 ("r1".toList) ("r3".toList) exRec exDb1
     (by decide) (by decide)⟩

/-- C4: the freshness predicate with the default 30-minute window accepts
exactly the tokens with `now - issuedAt <= 1800`; the boundary age of
exactly 1800 seconds is accepted, and a negative age (future-dated token) is
treated as fresh. -/
theorem C4_isFresh_default_window (issuedAt now : Int) :
    (validate_qr_timestamp issuedAt now = true ↔ now - issuedAt ≤ 1800)
    ∧ (now - issuedAt = 1800 → validate_qr_timestamp issuedAt now = true)
    ∧ (now - issuedAt < 0 → validate_qr_timestamp issuedAt now = true) := by
  unfold validate_qr_timestamp
  refine ⟨?_, ?_, ?_⟩ <;> simp <;> omega

/-- Witness for C4 at the boundary input `issuedAt = 1000`, `now = 2800`. -/
theorem C4_isFresh_default_window_witness :
    ((2800 : Int) - 1000 = 1800) ∧ validate_qr_timestamp 1000 2800 = true :=
  ⟨by decide, (C4_isFresh_default_window 1000 2800).2.1 (by decide)⟩

/-- C7: every rejected `mark_attendance` call returns the database unchanged,
and re-running the call with the same request, student and state — even with
a fresh clock reading and a fresh UUID — yields the same rejection kind. -/
theorem C7_rejection_idempotent (data : AttendanceRequest) (s : PyStr)
    (now now2 : Int) (nid nid2 : PyStr) (db db' : DB) (k : RejectKind)
    (hrej : mark_attendance data s now nid db = (.reject k, db')) :
    db' = db ∧ mark_attendance data s now2 nid2 db = (.reject k, db) := by
  unfold mark_attendance at hrej ⊢
  repeat' split at hrej
  all_goals simp_all

/-- Witness for C7: the not-enrolled student `u2` is rejected, the state is
unchanged, and the repeated call is rejected the same way. -/
theorem C7_rejection_idempotent_witness :
    mark_attendance exReq exStudent2 1500 ("r9".toList) exDb =
      (.reject .notEnrolled, exDb)
    ∧ (exDb = exDb
       ∧ mark_attendance exReq exStudent2 1600 ("ra".toList) exDb =
           (.reject .notEnrolled, exDb)) :=
  ⟨by decide,
   C7_rejection_idempotent exReq exStudent2 1500 1600 ("r9".toList)
     ("ra".toList) exDb exDb .notEnrolled (by decide)⟩

/-- C2: the mark-attendance pipeline runs its checks in the fixed order
action, session existence, enrollment, duplicate, short-circuiting on the
first failure: each rejection kind occurs exactly when its check fails and
all earlier checks pass; in particular `invalidAction` occurs exactly when
the requested action differs from the fixed action literal.  The HTTP codes
are 400/404/403/409 respectively. -/
theorem C2_pipeline_order (data : AttendanceRequest) (s : PyStr) (now : Int)
    (nid : PyStr) (db : DB) :
    ((mark_attendance data s now nid db).1 = .reject .invalidAction ↔
       (data.action == marcar_presenca) = false)
    ∧ ((mark_attendance data s now nid db).1 = .reject .sessionNotFound ↔
       data.action = marcar_presenca ∧ findDia db data.dia_aula_id = none)
    ∧ ((mark_attendance data s now nid db).1 = .reject .notEnrolled ↔
       data.action = marcar_presenca ∧
         ∃ dia, findDia db data.dia_aula_id = some dia ∧
           findEnrollment db dia.turma_id s = none)
    ∧ ((mark_attendance data s now nid db).1 = .reject .alreadyMarked ↔
       data.action = marcar_presenca ∧
         ∃ dia, findDia db data.dia_aula_id = some dia ∧
           (findEnrollment db dia.turma_id s).isSome = true ∧
           (findPresenca db s data.dia_aula_id).isSome = true)
    ∧ statusOf .invalidAction = 400 ∧ statusOf .sessionNotFound = 404
    ∧ statusOf .notEnrolled = 403 ∧ statusOf .alreadyMarked = 409 := by
  by_cases ha : data.action = marcar_presenca
  · rcases hd : findDia db data.dia_aula_id with _ | dia
    · simp [mark_attendance, ha, hd, statusOf]
    · rcases he : findEnrollment db dia.turma_id s with _ | e
      · simp [mark_attendance, ha, hd, he, statusOf]
      · rcases hp : findPresenca db s data.dia_aula_id with _ | p
        · simp [mark_attendance, ha, hd, he, hp, statusOf]
        · simp [mark_attendance, ha, hd, he, hp, statusOf]
  · simp [mark_attendance, ha, statusOf]

/-- C6: a student not enrolled (as a student) in the class owning the
requested session is rejected with `notEnrolled` (HTTP 403) whenever the
action is well-formed, and no attendance record is created.  The scan
request carries no token timestamp, so the verdict cannot depend on token
freshness. -/
theorem C6_not_enrolled_rejected (data : AttendanceRequest) (s : PyStr)
    (now : Int) (nid : PyStr) (db : DB) (dia : DiaDeAula)
    (ha : data.action = marcar_presenca)
    (hd : findDia db data.dia_aula_id = some dia)
    (he : findEnrollment db dia.turma_id s = none) :
    mark_attendance data s now nid db = (.reject .notEnrolled, db)
    ∧ statusOf .notEnrolled = 403 := by
  refine ⟨?_, rfl⟩
  simp [mark_attendance, ha, hd, he]

/-- Witness for C6: student `u2`, enrolled nowhere, scans session `s1` with
a well-formed action and is rejected with 403, leaving the ledger empty. -/
theorem C6_not_enrolled_rejected_witness :
    (exReq.action = marcar_presenca
     ∧ findDia exDb exReq.dia_aula_id = some exDia1
     ∧ findEnrollment exDb exDia1.turma_id exStudent2 = none)
    ∧ mark_attendance exReq exStudent2 1500 ("rb".toList) exDb =
        (.reject .notEnrolled, exDb)
    ∧ statusOf .notEnrolled = 403 :=
  ⟨⟨by decide, by decide, by decide⟩,
   C6_not_enrolled_rejected exReq exStudent2 1500 ("rb".toList) exDb exDia1
     (by decide) (by decide) (by decide)⟩

/-- C9: the attendance-count handler never returns a count.  Its body
references the name `func`, which no import of the module binds, so every
invocation aborts with `NameError` before the counting query can run; the
count its query text denotes (`countForSession`) is never produced. -/
theorem C9_count_name_error (day_id : PyStr) (db : DB) :
    get_attendance_count day_id db = .internalError nameErrorFunc
    ∧ countForSession exDb1 exSession1 = 1 := by
  constructor
  · rfl
  · decide

/-- C5 (amended): decoding the minted token recovers the session identifier,
issuance timestamp and action tag exactly, through the pipe-delimited
three-field wire format, for every session identifier that does not itself
contain the pipe delimiter (an identifier containing a pipe corrupts the
field structure — see the counterexample). -/
theorem C5_decode_mint_roundtrip (sid : PyStr) (t : Int) (hs : '|' ∉ sid) :
    parse_qr_data (generate_qr_string ⟨sid, t, marcar_presenca⟩) =
      some ⟨sid, t, marcar_presenca⟩ := by
  have hgen : generate_qr_string ⟨sid, t, marcar_presenca⟩ =
      sid ++ '|' :: (intChars t ++ '|' :: marcar_presenca) := by
    unfold generate_qr_string
    simp [List.append_assoc]
  rw [hgen]
  unfold parse_qr_data
  rw [splitOnChar_append '|' sid _ hs,
    splitOnChar_append '|' (intChars t) _ (pipe_not_mem_intChars t),
    splitOnChar_not_mem '|' marcar_presenca pipe_not_mem_action]
  simp [pyInt?_intChars]

/-- Witness for C5: the pipe-free session id `s1` with timestamp 1000
round-trips exactly. -/
theorem C5_decode_mint_roundtrip_witness :
    ('|' ∉ exSession1)
    ∧ parse_qr_data (generate_qr_string ⟨exSession1, 1000, marcar_presenca⟩) =
        some ⟨exSession1, 1000, marcar_presenca⟩ :=
  ⟨by decide, C5_decode_mint_roundtrip exSession1 1000 (by decide)⟩

/-- C5 counterexample: for the session identifier `"a|b"` (a legal Python
string) and timestamp 0, the minted payload splits into four fields, so
decoding raises `ValueError` instead of recovering the inputs; the claim's
universal round-trip property fails at this input. -/
theorem C5_counterexample :
    parse_qr_data (generate_qr_string ⟨"a|b".toList, 0, marcar_presenca⟩) = none
    ∧ decide (parse_qr_data (generate_qr_string ⟨"a|b".toList, 0, marcar_presenca⟩)
        = some ⟨"a|b".toList, 0, marcar_presenca⟩) = false :=
  ⟨by decide, by decide⟩

/-- C3 (amended): on the QR-scan entry path the token-freshness check is
disabled (commented out in the handler, and the scan request model carries
no timestamp at all), so no scan request is ever rejected with
`tokenExpired`. -/
theorem C3_scan_never_token_expired (data : AttendanceRequest) (s : PyStr)
    (now : Int) (nid : PyStr) (db : DB) :
    decide ((scan_qrcode data s now nid db).1 = .reject .tokenExpired) = false := by
  simp only [decide_eq_false_iff_not]
  unfold scan_qrcode mark_attendance
  repeat' split
  all_goals simp

/-- C3 counterexample: a token for session `s1` minted at `t = 1000` is
stale at `t = 2801` (`isFresh` is false), yet the enrolled student `u1`
scanning it at `t = 2801` is accepted and an attendance record is created —
not rejected with `TokenExpired` as the claim states. -/
theorem C3_counterexample :
    validate_qr_timestamp 1000 2801 = false
    ∧ generate_qrcode exSession1 exProf1 1000 exDb =
        .ok ⟨exSession1, 1000, marcar_presenca⟩
          (generate_qr_string ⟨exSession1, 1000, marcar_presenca⟩)
    ∧ scan_qrcode exReq exStudent1 2801 ("r1".toList) exDb =
        (.ok ⟨"r1".toList, exStudent1, exSession1, 2801⟩,
         ⟨[exDia1], [exEnr1], [⟨"r1".toList, exStudent1, exSession1, 2801⟩]⟩)
    ∧ decide ((scan_qrcode exReq exStudent1 2801 ("r1".toList) exDb).1 =
        .reject .tokenExpired) = false :=
  ⟨by decide, by decide, by decide, by decide⟩

/-- C8 (amended): the token-generation endpoint folds the ownership check
into its lookup: it rejects with HTTP 404 (`"Class day not found or access
denied"`) — not with a distinct `Forbidden` — exactly when no session with
the requested id and the issuing professor as owner exists; when the issuer
owns the session it returns the session id, issuance time, action tag and
encoded token. -/
theorem C8_token_generation (db : DB) (dia_id prof : PyStr) (now : Int) :
    (generate_qrcode dia_id prof now db = .httpError 404 accessDeniedDetail ↔
       findDiaOwned db dia_id prof = none)
    ∧ ((findDiaOwned db dia_id prof).isSome = true ↔
       generate_qrcode dia_id prof now db =
         .ok ⟨dia_id, now, marcar_presenca⟩
           (generate_qr_string ⟨dia_id, now, marcar_presenca⟩)) := by
  rcases h : findDiaOwned db dia_id prof with _ | dia <;>
    simp [generate_qrcode, h]

/-- C8 counterexample: session `s1` exists and is owned by professor `p1`;
when professor `p2` requests a token for it the handler rejects with HTTP
404 (`"Class day not found or access denied"`), not with a Forbidden (403)
rejection as the claim states. -/
theorem C8_counterexample :
    findDia exDb exSession1 = some exDia1
    ∧ exDia1.professor_id = exProf1
    ∧ generate_qrcode exSession1 exProf2 50 exDb = .httpError 404 accessDeniedDetail
    ∧ decide (generate_qrcode exSession1 exProf2 50 exDb =
        .httpError 403 accessDeniedDetail) = false :=
  ⟨by decide, by decide, by decide, by decide⟩

/-- C10: on the direct `POST /student/attendance` path every request fails
with an internal error (the handler reads `attendance_data.timestamp`, a
field the `AttendanceRequest` model does not define) before any accept or
reject verdict is produced, and the stored state is untouched. -/
theorem C10_student_path_attribute_error (data : AttendanceRequest)
    (s : PyStr) (now : Int) (nid : PyStr) (db : DB) :
    student_mark_attendance data s now nid db =
      (.internalError attributeErrorTimestamp, db) :=
  rfl

end StudentBackend
